import Mathlib

/-!
Shallow embedding of the LunaRTOS kernel core (src/drivers/Src/kernel.c)
and the interfaces declared in kernel.h / used from main.c.

Machine words (32-bit stores) are modelled as `Nat` values reduced mod `2^32`
where the C code performs a 32-bit store of a possibly wider value.
C pointers into the TCB array are modelled as thread indices (`Nat`),
and a pointer into a thread's private stack as the word index within
that thread's stack region.  A null pointer is `none` (for TCB links and
the current-thread pointer) or the address value `0` (for task entry points).
-/

namespace LunaRTOS

/-- `#define SYS_CLOCK 16000000` in kernel.c. -/
def SYS_CLOCK : Nat := 16000000

/-- `#define NUM_THREADS 3` in kernel.c. -/
def NUM_THREADS : Nat := 3

/-- `#define MAX_STACK_SIZE 100` in kernel.c. -/
def MAX_STACK_SIZE : Nat := 100

/-- Modulus of a 32-bit machine word. -/
def U32 : Nat := 2 ^ 32

/-- Pointwise array update, modelling a C array store `a[k] = v`. -/
def upd {α : Type} (f : Nat → α) (k : Nat) (v : α) : Nat → α :=
  fun j => if j = k then v else f j

/-- The kernel's global state: the TCB array (`tcb[NUM_THREADS]`, split into
its two fields), the per-thread stacks `TCB_STACK`, the current-thread
pointer `currStackPtr`, the timing base `MS_PRESCALER`, the SysTick
registers the kernel writes, the exception priorities the kernel may
configure (`none` = not configured by the kernel), the global interrupt
enable, and the pending context-switch request. -/
structure KState where
  tcbStackPtr : Nat → Nat
  tcbNext : Nat → Option Nat
  tcbStack : Nat → Nat → Nat
  currStackPtr : Option Nat
  msPrescaler : Nat
  sysTickCtrl : Nat
  sysTickVal : Nat
  sysTickLoad : Nat
  sysTickPrio : Option Nat
  switchExcPrio : Option Nat
  irqEnabled : Bool
  pendSwitch : Bool

/-- The state of the zero-initialized C globals at reset: all stacks and
registers zero, all pointers null, interrupts enabled, nothing pending. -/
def resetState : KState :=
  { tcbStackPtr := fun _ => 0
    tcbNext := fun _ => none
    tcbStack := fun _ _ => 0
    currStackPtr := none
    msPrescaler := 0
    sysTickCtrl := 0
    sysTickVal := 0
    sysTickLoad := 0
    sysTickPrio := none
    switchExcPrio := none
    irqEnabled := true
    pendSwitch := false }

/-- Store `v` into word `k` of thread `i`'s stack region
(`TCB_STACK[i][k] = v`). -/
def writeStack (s : KState) (i k v : Nat) : KState :=
  { s with tcbStack := upd s.tcbStack i (upd (s.tcbStack i) k v) }

/-- `KernelInit` from kernel.c: `MS_PRESCALER = SYS_CLOCK / 1000`. -/
def KernelInit (s : KState) : KState :=
  { s with msPrescaler := SYS_CLOCK / 1000 }

/-- `KernelLaunch` from kernel.c: resets and configures SysTick.  The C
function reads the quantum from the `QUANTA` macro (10 in main.c); it is a
parameter here, matching the `KernelLaunch(uint32_t quanta)` declaration in
kernel.h.  `SysTick->LOAD = (QUANTA * MS_PRESCALER) - 1` is a 32-bit unsigned
computation, and `NVIC_SetPriority(SysTick_IRQn, 15)` sets the SysTick
exception priority.  The function body ends after enabling the counter and
interrupt (`// TODO: Launch the Scheduler`), so the resulting state is what
the caller observes when the call returns. -/
def KernelLaunch (quanta : Nat) (s : KState) : KState :=
  let s := { s with sysTickCtrl := 0 }
  let s := { s with sysTickVal := 0 }
  let s := { s with sysTickLoad := (quanta * s.msPrescaler % U32 + (U32 - 1)) % U32 }
  let s := { s with sysTickPrio := some 15 }
  let s := { s with sysTickCtrl := s.sysTickCtrl ||| (1 <<< 2) }
  let s := { s with sysTickCtrl := s.sysTickCtrl ||| (1 <<< 0) }
  let s := { s with sysTickCtrl := s.sysTickCtrl ||| (1 <<< 1) }
  s

/-- `KernelStackInit(uint8_t i)` from kernel.c: sets the saved stack pointer
to `&TCB_STACK[i][MAX_STACK_SIZE-16]`, sets the Thumb bit (bit 24) word at
`MAX_STACK_SIZE-1`, and fills the register slots `MAX_STACK_SIZE-3` (LR)
down to `MAX_STACK_SIZE-16` (R4) with the sentinel `0xAAAAAAAA`. -/
def KernelStackInit (i : Nat) (s : KState) : KState :=
  let s := { s with tcbStackPtr := upd s.tcbStackPtr i (MAX_STACK_SIZE - 16) }
  let s := writeStack s i (MAX_STACK_SIZE - 1) (1 <<< 24)
  let s := writeStack s i (MAX_STACK_SIZE - 3) 0xAAAAAAAA
  let s := writeStack s i (MAX_STACK_SIZE - 4) 0xAAAAAAAA
  let s := writeStack s i (MAX_STACK_SIZE - 5) 0xAAAAAAAA
  let s := writeStack s i (MAX_STACK_SIZE - 6) 0xAAAAAAAA
  let s := writeStack s i (MAX_STACK_SIZE - 7) 0xAAAAAAAA
  let s := writeStack s i (MAX_STACK_SIZE - 8) 0xAAAAAAAA
  let s := writeStack s i (MAX_STACK_SIZE - 9) 0xAAAAAAAA
  let s := writeStack s i (MAX_STACK_SIZE - 10) 0xAAAAAAAA
  let s := writeStack s i (MAX_STACK_SIZE - 11) 0xAAAAAAAA
  let s := writeStack s i (MAX_STACK_SIZE - 12) 0xAAAAAAAA
  let s := writeStack s i (MAX_STACK_SIZE - 13) 0xAAAAAAAA
  let s := writeStack s i (MAX_STACK_SIZE - 14) 0xAAAAAAAA
  let s := writeStack s i (MAX_STACK_SIZE - 15) 0xAAAAAAAA
  let s := writeStack s i (MAX_STACK_SIZE - 16) 0xAAAAAAAA
  s

/-- `KernelCreateThreads(task0, task1, task2)` from kernel.c.  Task entry
points are modelled as address values (`0` = NULL); the store of
`(int32_t)(task)` into the PC slot keeps the low 32 bits of the address.
The function disables interrupts, links the three TCBs into the fixed
circular list, initializes each stack and PC slot, points `currStackPtr`
at `tcb[0]`, re-enables interrupts, and returns 1 unconditionally. -/
def KernelCreateThreads (task0 task1 task2 : Nat) (s : KState) : KState × Nat :=
  let s := { s with irqEnabled := false }
  let s := { s with tcbNext := upd s.tcbNext 0 (some 1) }
  let s := { s with tcbNext := upd s.tcbNext 1 (some 2) }
  let s := { s with tcbNext := upd s.tcbNext 2 (some 0) }
  let s := KernelStackInit 0 s
  let s := writeStack s 0 (MAX_STACK_SIZE - 2) (task0 % U32)
  let s := KernelStackInit 1 s
  let s := writeStack s 1 (MAX_STACK_SIZE - 2) (task1 % U32)
  let s := KernelStackInit 2 s
  let s := writeStack s 2 (MAX_STACK_SIZE - 2) (task2 % U32)
  let s := { s with currStackPtr := some 0 }
  let s := { s with irqEnabled := true }
  (s, 1)

/-- The state component of a `KernelCreateThreads` call. -/
def created (task0 task1 task2 : Nat) (s : KState) : KState :=
  (KernelCreateThreads task0 task1 task2 s).1

/-- The event that triggers a context switch: a SysTick quantum expiry or a
voluntary yield from the running thread. -/
inductive Event
  | timerTick
  | yieldCall

/-- Modelled from the spec: `ThreadYield` is declared in kernel.h but its
body is not among the provided sources; per §4.6 it only sets the
pending-switch request, ending the calling thread's quantum early. -/
def ThreadYield (s : KState) : KState :=
  { s with pendSwitch := true }

/-- Modelled from the spec: the context-switch engine (§4.5) is not among
the provided sources (`// TODO: Launch the Scheduler`).  Per §4.5 a switch,
whether timer- or yield-triggered, saves the running thread's registers on
its own stack, persists the resulting stack pointer (`sp`, runtime data,
here a parameter) into its TCB, advances `currStackPtr` to its successor
per the round-robin selector, and consumes the pending request.  The
successor links are read, never written. -/
def SchedStep (_e : Event) (sp : Nat) (s : KState) : KState :=
  match s.currStackPtr with
  | some i =>
      { s with tcbStackPtr := upd s.tcbStackPtr i sp
               currStackPtr := s.tcbNext i
               pendSwitch := false }
  | none => s

/-- Run a sequence of context switches, each with its triggering event and
the running thread's stack-pointer value at that switch. -/
def applyEvents (l : List (Event × Nat)) (s : KState) : KState :=
  l.foldl (fun t p => SchedStep p.1 p.2 t) s

/-- States reachable once `KernelCreateThreads` has completed: the
post-creation state itself, and anything a later kernel operation
(`KernelInit`, `KernelLaunch`, `ThreadYield`, a context switch) produces. -/
inductive Reach : KState → Prop
  | createdBase (task0 task1 task2 : Nat) (s : KState) :
      Reach (created task0 task1 task2 s)
  | inited {s : KState} : Reach s → Reach (KernelInit s)
  | launched (quanta : Nat) {s : KState} : Reach s → Reach (KernelLaunch quanta s)
  | yielded {s : KState} : Reach s → Reach (ThreadYield s)
  | stepped (e : Event) (sp : Nat) {s : KState} : Reach s → Reach (SchedStep e sp s)

/-- The concrete successor links built at creation. -/
def cyc (s : KState) : Prop :=
  s.tcbNext 0 = some 1 ∧ s.tcbNext 1 = some 2 ∧ s.tcbNext 2 = some 0

/-- The successor relation is a single cycle visiting every created thread
exactly once: starting from thread 0 the links pass through distinct
threads `a` and `b` back to 0, and every created thread occurs on that
cycle. -/
def visitsAllOnce (s : KState) : Prop :=
  ∃ a b, s.tcbNext 0 = some a ∧ s.tcbNext a = some b ∧ s.tcbNext b = some 0 ∧
    ([0, a, b] : List Nat).Nodup ∧ ∀ i, i < NUM_THREADS → i ∈ ([0, a, b] : List Nat)

-- Projection facts used by several proofs.

theorem created_tcbNext0 (t0 t1 t2 : Nat) (s : KState) :
    (created t0 t1 t2 s).tcbNext 0 = some 1 := rfl

theorem created_tcbNext1 (t0 t1 t2 : Nat) (s : KState) :
    (created t0 t1 t2 s).tcbNext 1 = some 2 := rfl

theorem created_tcbNext2 (t0 t1 t2 : Nat) (s : KState) :
    (created t0 t1 t2 s).tcbNext 2 = some 0 := rfl

theorem created_curr (t0 t1 t2 : Nat) (s : KState) :
    (created t0 t1 t2 s).currStackPtr = some 0 := rfl

theorem kernelInit_tcbNext (s : KState) : (KernelInit s).tcbNext = s.tcbNext := rfl

theorem kernelLaunch_tcbNext (q : Nat) (s : KState) :
    (KernelLaunch q s).tcbNext = s.tcbNext := rfl

theorem threadYield_tcbNext (s : KState) : (ThreadYield s).tcbNext = s.tcbNext := rfl

theorem schedStep_tcbNext (e : Event) (sp : Nat) (s : KState) :
    (SchedStep e sp s).tcbNext = s.tcbNext := by
  cases h : s.currStackPtr <;> simp [SchedStep, h]

theorem reach_cyc {s : KState} (h : Reach s) : cyc s := by
  induction h with
  | createdBase t0 t1 t2 s =>
      exact ⟨created_tcbNext0 t0 t1 t2 s, created_tcbNext1 t0 t1 t2 s,
        created_tcbNext2 t0 t1 t2 s⟩
  | inited _ ih => simpa [cyc, kernelInit_tcbNext] using ih
  | launched q _ ih => simpa [cyc, kernelLaunch_tcbNext] using ih
  | yielded _ ih => simpa [cyc, threadYield_tcbNext] using ih
  | stepped e sp _ ih => simpa [cyc, schedStep_tcbNext] using ih

theorem schedStep_curr {s : KState} {i : Nat} (e : Event) (sp : Nat)
    (hc : s.currStackPtr = some i) :
    (SchedStep e sp s).currStackPtr = s.tcbNext i := by
  simp [SchedStep, hc]

/-- Running any sequence of switches from a state whose links form the
creation-time cycle and whose current thread is `i < 3` lands on thread
`(i + number of switches) % 3`, and preserves the cycle. -/
theorem applyEvents_curr (l : List (Event × Nat)) :
    ∀ (s : KState) (i : Nat), cyc s → s.currStackPtr = some i → i < 3 →
      (applyEvents l s).currStackPtr = some ((i + l.length) % 3) ∧
        cyc (applyEvents l s) := by
  induction l with
  | nil =>
      intro s i hcyc hc hi
      refine ⟨?_, hcyc⟩
      simp [applyEvents, hc, Nat.mod_eq_of_lt hi]
  | cons p rest ih =>
      intro s i hcyc hc hi
      have hstep : (SchedStep p.1 p.2 s).currStackPtr = some ((i + 1) % 3) := by
        rw [schedStep_curr p.1 p.2 hc]
        interval_cases i
        · exact hcyc.1
        · exact hcyc.2.1
        · exact hcyc.2.2
      have hcyc' : cyc (SchedStep p.1 p.2 s) := by
        simpa [cyc, schedStep_tcbNext] using hcyc
      have happ : applyEvents (p :: rest) s = applyEvents rest (SchedStep p.1 p.2 s) := rfl
      rw [happ]
      obtain ⟨h1, h2⟩ := ih (SchedStep p.1 p.2 s) ((i + 1) % 3) hcyc' hstep
        (Nat.mod_lt _ (by norm_num))
      refine ⟨?_, h2⟩
      rw [h1]
      simp only [List.length_cons]
      congr 1
      omega

/-- The kernel state as `main` leaves it at the moment the scheduler would
take over: `KernelInit`, then thread creation, then `KernelLaunch`. -/
def launchState (task0 task1 task2 quanta : Nat) (s : KState) : KState :=
  KernelLaunch quanta (created task0 task1 task2 (KernelInit s))

theorem launchState_curr (t0 t1 t2 q : Nat) (s : KState) :
    (launchState t0 t1 t2 q s).currStackPtr = some 0 := rfl

theorem launchState_cyc (t0 t1 t2 q : Nat) (s : KState) :
    cyc (launchState t0 t1 t2 q s) := ⟨rfl, rfl, rfl⟩

theorem launchState_act (t0 t1 t2 q : Nat) (s : KState) (l : List (Event × Nat)) :
    (applyEvents l (launchState t0 t1 t2 q s)).currStackPtr = some (l.length % 3) := by
  have h := (applyEvents_curr l (launchState t0 t1 t2 q s) 0
    (launchState_cyc t0 t1 t2 q s) (launchState_curr t0 t1 t2 q s) (by norm_num)).1
  simpa using h

/-- C1: after launch the thread entering RUNNING at the k-th switch is
k mod 3, for every mix of timer- and yield-triggered switches — the fixed
cyclic permutation (0,1,2,0,1,2,…) of the N = 3 created threads — and over
any window of 3 consecutive switches each of the 3 threads is activated
exactly once. -/
theorem c1_round_robin_sequence (t0 t1 t2 q : Nat) (s : KState)
    (l : List (Event × Nat)) :
    (applyEvents l (launchState t0 t1 t2 q s)).currStackPtr = some (l.length % 3) ∧
    ∀ p1 p2 : Event × Nat,
      ([(applyEvents l (launchState t0 t1 t2 q s)).currStackPtr,
        (applyEvents (l ++ [p1]) (launchState t0 t1 t2 q s)).currStackPtr,
        (applyEvents (l ++ [p1, p2]) (launchState t0 t1 t2 q s)).currStackPtr]).Perm
        [some 0, some 1, some 2] := by
  refine ⟨launchState_act t0 t1 t2 q s l, ?_⟩
  intro p1 p2
  rw [launchState_act t0 t1 t2 q s l, launchState_act t0 t1 t2 q s (l ++ [p1]),
    launchState_act t0 t1 t2 q s (l ++ [p1, p2])]
  simp only [List.length_append, List.length_cons, List.length_nil]
  have h3 : l.length % 3 = 0 ∨ l.length % 3 = 1 ∨ l.length % 3 = 2 := by omega
  rcases h3 with h | h | h <;>
    [ (have e1 : (l.length + 1) % 3 = 1 := by omega
       have e2 : (l.length + 2) % 3 = 2 := by omega
       rw [h, e1, e2]);
      (have e1 : (l.length + 1) % 3 = 2 := by omega
       have e2 : (l.length + 2) % 3 = 0 := by omega
       rw [h, e1, e2]);
      (have e1 : (l.length + 1) % 3 = 0 := by omega
       have e2 : (l.length + 2) % 3 = 1 := by omega
       rw [h, e1, e2]) ] <;> decide

/-- C5: in every state reachable after thread creation — through any mix of
later kernel operations and context switches, none of which mutates a
successor link — the successor relation forms a single cycle visiting every
created thread exactly once. -/
theorem c5_next_single_cycle (s : KState) (h : Reach s) : visitsAllOnce s := by
  obtain ⟨h0, h1, h2⟩ := reach_cyc h
  refine ⟨1, 2, h0, h1, h2, by decide, ?_⟩
  intro i hi
  simp only [NUM_THREADS] at hi
  interval_cases i <;> decide

/-- C5 witness: the post-creation state for concrete entry points satisfies
the single-cycle invariant. -/
theorem c5_next_single_cycle_app : visitsAllOnce (created 4097 4099 4101 resetState) :=
  c5_next_single_cycle _ (Reach.createdBase 4097 4099 4101 resetState)

/-- C9: after a successful `KernelCreateThreads` the current-thread pointer
designates the first TCB, thread 0. -/
theorem c9_current_thread_first (t0 t1 t2 : Nat) (s : KState) :
    (KernelCreateThreads t0 t1 t2 s).1.currStackPtr = some 0 := rfl

/-- C10: `KernelCreateThreads` returns the constant 1 for every combination
of task addresses, null (0) included — independent of its inputs, and not
the 0 that the kernel.h interface documentation designates as success. -/
theorem c10_returns_one (t0 t1 t2 : Nat) (s : KState) :
    (KernelCreateThreads t0 t1 t2 s).2 = 1 ∧
    (KernelCreateThreads 0 0 0 s).2 = (KernelCreateThreads t0 t1 t2 s).2 ∧
    (1 : Nat) ≠ 0 := ⟨rfl, rfl, by decide⟩

/-- C2: after creation, for each thread i of stack capacity C = 100 words,
the saved stack pointer in the TCB designates stack slot C − 16, slot C − 2
holds thread i's entry-point address, and the saved-status-register slot
C − 1 has the Thumb-mode bit (bit 24) set. -/
theorem c2_stack_frame_layout (t0 t1 t2 : Nat) (s : KState)
    (h0 : t0 < U32) (h1 : t1 < U32) (h2 : t2 < U32) :
    ((created t0 t1 t2 s).tcbStackPtr 0 = MAX_STACK_SIZE - 16 ∧
      (created t0 t1 t2 s).tcbStack 0 (MAX_STACK_SIZE - 2) = t0 ∧
      Nat.testBit ((created t0 t1 t2 s).tcbStack 0 (MAX_STACK_SIZE - 1)) 24 = true) ∧
    ((created t0 t1 t2 s).tcbStackPtr 1 = MAX_STACK_SIZE - 16 ∧
      (created t0 t1 t2 s).tcbStack 1 (MAX_STACK_SIZE - 2) = t1 ∧
      Nat.testBit ((created t0 t1 t2 s).tcbStack 1 (MAX_STACK_SIZE - 1)) 24 = true) ∧
    ((created t0 t1 t2 s).tcbStackPtr 2 = MAX_STACK_SIZE - 16 ∧
      (created t0 t1 t2 s).tcbStack 2 (MAX_STACK_SIZE - 2) = t2 ∧
      Nat.testBit ((created t0 t1 t2 s).tcbStack 2 (MAX_STACK_SIZE - 1)) 24 = true) := by
  have h24 : Nat.testBit (1 <<< 24) 24 = true := by decide
  have b0 : (created t0 t1 t2 s).tcbStack 0 (MAX_STACK_SIZE - 1) = 1 <<< 24 := by
    simp [created, KernelCreateThreads, KernelStackInit, writeStack, upd, MAX_STACK_SIZE]
  have b1 : (created t0 t1 t2 s).tcbStack 1 (MAX_STACK_SIZE - 1) = 1 <<< 24 := by
    simp [created, KernelCreateThreads, KernelStackInit, writeStack, upd, MAX_STACK_SIZE]
  have b2 : (created t0 t1 t2 s).tcbStack 2 (MAX_STACK_SIZE - 1) = 1 <<< 24 := by
    simp [created, KernelCreateThreads, KernelStackInit, writeStack, upd, MAX_STACK_SIZE]
  have p0 : (created t0 t1 t2 s).tcbStack 0 (MAX_STACK_SIZE - 2) = t0 % U32 := by
    simp [created, KernelCreateThreads, KernelStackInit, writeStack, upd, MAX_STACK_SIZE]
  have p1 : (created t0 t1 t2 s).tcbStack 1 (MAX_STACK_SIZE - 2) = t1 % U32 := by
    simp [created, KernelCreateThreads, KernelStackInit, writeStack, upd, MAX_STACK_SIZE]
  have p2 : (created t0 t1 t2 s).tcbStack 2 (MAX_STACK_SIZE - 2) = t2 % U32 := by
    simp [created, KernelCreateThreads, KernelStackInit, writeStack, upd, MAX_STACK_SIZE]
  exact ⟨⟨rfl, p0.trans (Nat.mod_eq_of_lt h0),
      (congrArg (fun v => Nat.testBit v 24) b0).trans h24⟩,
    ⟨rfl, p1.trans (Nat.mod_eq_of_lt h1),
      (congrArg (fun v => Nat.testBit v 24) b1).trans h24⟩,
    ⟨rfl, p2.trans (Nat.mod_eq_of_lt h2),
      (congrArg (fun v => Nat.testBit v 24) b2).trans h24⟩⟩

/-- C2 witness: the layout at concrete 32-bit entry-point addresses. -/
theorem c2_stack_frame_layout_app :
    (4097 < U32 ∧ 4099 < U32 ∧ 4101 < U32) ∧
    (created 4097 4099 4101 resetState).tcbStackPtr 0 = MAX_STACK_SIZE - 16 ∧
    (created 4097 4099 4101 resetState).tcbStack 0 (MAX_STACK_SIZE - 2) = 4097 ∧
    Nat.testBit ((created 4097 4099 4101 resetState).tcbStack 0 (MAX_STACK_SIZE - 1)) 24
      = true := by
  have h0 : 4097 < U32 := by decide
  have h1 : 4099 < U32 := by decide
  have h2 : 4101 < U32 := by decide
  obtain ⟨⟨a, b, c⟩, _, _⟩ := c2_stack_frame_layout 4097 4099 4101 resetState h0 h1 h2
  exact ⟨⟨h0, h1, h2⟩, a, b, c⟩

/-- C3: after `KernelInit` then `KernelLaunch Q`, the programmed SysTick
reload value is Q·(F/1000) − 1 for the system clock rate F = `SYS_CLOCK`. -/
theorem c3_reload_value (q : Nat) (s : KState) (hq : 1 ≤ q)
    (hw : q * (SYS_CLOCK / 1000) < U32) :
    (KernelLaunch q (KernelInit s)).sysTickLoad = q * (SYS_CLOCK / 1000) - 1 := by
  simp only [KernelLaunch, KernelInit, SYS_CLOCK, U32] at *
  omega

/-- C3 witness: with F = 16,000,000 and Q = 10 the programmed reload value
is 159,999. -/
theorem c3_reload_value_app :
    (KernelLaunch 10 (KernelInit resetState)).sysTickLoad = 159999 := by
  have h := c3_reload_value 10 resetState (by norm_num) (by decide)
  simpa [SYS_CLOCK] using h

/-- C8: every general-purpose register slot of a thread's initial saved
frame — R0–R3, R12 and LR in the hardware-restorable part (slots C − 8 to
C − 3) and R4–R11 in the software-restorable part (slots C − 16 to C − 9) —
holds the one fixed non-zero sentinel 0xAAAAAAAA after creation. -/
theorem c8_sentinel_registers (t0 t1 t2 : Nat) (s : KState) (i j : Nat)
    (hi : i < NUM_THREADS) (hj1 : MAX_STACK_SIZE - 16 ≤ j)
    (hj2 : j ≤ MAX_STACK_SIZE - 3) :
    (created t0 t1 t2 s).tcbStack i j = 0xAAAAAAAA ∧ (0xAAAAAAAA : Nat) ≠ 0 := by
  simp only [NUM_THREADS] at hi
  simp only [MAX_STACK_SIZE] at hj1 hj2
  refine ⟨?_, by decide⟩
  interval_cases i <;> interval_cases j <;> rfl

/-- C8 witness: thread 0's R4 slot (index C − 16 = 84) holds the sentinel. -/
theorem c8_sentinel_registers_app :
    0 < NUM_THREADS ∧ MAX_STACK_SIZE - 16 ≤ 84 ∧ 84 ≤ MAX_STACK_SIZE - 3 ∧
    (created 4097 4099 4101 resetState).tcbStack 0 84 = 0xAAAAAAAA := by
  refine ⟨by decide, by decide, by decide, ?_⟩
  exact (c8_sentinel_registers 4097 4099 4101 resetState 0 84 (by decide) (by decide)
    (by decide)).1

/-- C4: `KernelCreateThreads` called with a null first entry point (the only
thread count the fixed 3-argument interface admits) performs no validation:
it still returns 1, installs the null address in thread 0's program-counter
slot, and makes all TCBs scheduler-reachable by setting the current-thread
pointer — the scheduler-visible state is not left unchanged. -/
theorem c4_null_task_accepted :
    (KernelCreateThreads 0 4099 4101 resetState).2 = 1 ∧
    (KernelCreateThreads 0 4099 4101 resetState).1.tcbStack 0 (MAX_STACK_SIZE - 2) = 0 ∧
    (KernelCreateThreads 0 4099 4101 resetState).1.currStackPtr = some 0 ∧
    resetState.currStackPtr = none :=
  ⟨rfl, rfl, rfl, rfl⟩

/-- The configuration C6 claims `KernelLaunch` establishes: both the tick
exception and the context-switch exception have a kernel-configured
priority, the tick's is strictly higher (numerically smaller, in the
Cortex-M convention the code's own `NVIC_SetPriority` call uses), and the
switch exception sits at the lowest level, 15. -/
def TickAboveSwitch (s : KState) : Prop :=
  ∃ pt ps, s.sysTickPrio = some pt ∧ s.switchExcPrio = some ps ∧ pt < ps ∧ ps = 15

/-- C6 counterexample: after the full init/create/launch sequence at
concrete inputs, no context-switch exception priority has been configured
at all, so the claimed priority ordering does not hold. -/
theorem c6_priorities_counterexample :
    ¬ TickAboveSwitch (launchState 4097 4099 4101 10 resetState) := by
  rintro ⟨pt, ps, -, hps, -, -⟩
  have hnone : (launchState 4097 4099 4101 10 resetState).switchExcPrio = none := rfl
  rw [hnone] at hps
  exact Option.noConfusion hps

/-- C6 amended: `KernelLaunch` sets the SysTick (tick) exception itself to
priority 15, the lowest level, and configures no separate context-switch
exception priority (that register is left untouched). -/
theorem c6_tick_lowest_priority (q : Nat) (s : KState) :
    (KernelLaunch q s).sysTickPrio = some 15 ∧
    (KernelLaunch q s).switchExcPrio = s.switchExcPrio ∧
    (launchState 4097 4099 4101 10 resetState).switchExcPrio = none :=
  ⟨rfl, rfl, rfl⟩

/-- C7: `KernelLaunch` as implemented returns to its caller without handing
control to any thread: the scheduler start is absent (`// TODO`), so the
call completes as an ordinary function and leaves the current-thread
pointer untouched — it does not begin executing thread 0. -/
theorem c7_launch_returns (q : Nat) (s : KState) :
    (KernelLaunch q s).currStackPtr = s.currStackPtr ∧
    (KernelLaunch q s).tcbStackPtr = s.tcbStackPtr ∧
    (KernelLaunch q s).tcbStack = s.tcbStack :=
  ⟨rfl, rfl, rfl⟩

end LunaRTOS
